import Mathlib

/-!
Verification of the kalfje reporting tool (src/main.rs) against its
natural-language specification.  The program parses two dates, connects to a
PostgreSQL database, runs a fixed battery of analytical queries (sections
A2 .. A13) and prints each result with, for some sections, a client-side sum.

The embedding below models:
  * calendar dates and the strict `[year]-[month]-[day]` parser used in `main`;
  * the database tables the queries touch, as lists of rows;
  * each SQL query of `collect_and_print` as a pure function on that state,
    with `COUNT(DISTINCT x)` rendered as deduplicated-list length;
  * the printed report (section titles, bodies and optional Sum lines) and
    the order of observable effects in `main` (connect before parse).
-/

/-- Calendar date, as in the `time` crate's `Date` (year, month, day). -/
structure Date where
  year : Int
  month : Int
  day : Int
deriving DecidableEq, Repr

/-- Chronological strict order on dates; PostgreSQL `<` on `date` values.
For valid dates this is lexicographic on (year, month, day). -/
def dateLt (a b : Date) : Bool :=
  decide (a.year < b.year ∨ (a.year = b.year ∧
    (a.month < b.month ∨ (a.month = b.month ∧ a.day < b.day))))

/-- Chronological non-strict order on dates; PostgreSQL `<=`. -/
def dateLe (a b : Date) : Bool :=
  dateLt a b || decide (a = b)

/-- PostgreSQL `+ interval '1 year'` on a date (no Feb 29 in this program:
the only dates stepped are August 1sts). -/
def addYear (d : Date) : Date :=
  ⟨d.year + 1, d.month, d.day⟩

/-- Leap-year test of the proleptic Gregorian calendar, as validated by
`time::Date`. -/
def isLeap (y : Int) : Bool :=
  decide (y % 4 = 0 ∧ (y % 100 ≠ 0 ∨ y % 400 = 0))

/-- Number of days of month `m` of year `y` (months counted 1..12). -/
def daysInMonth (y m : Int) : Int :=
  if m = 2 then (if isLeap y then 29 else 28)
  else if m = 4 ∨ m = 6 ∨ m = 9 ∨ m = 11 then 30
  else 31

/-- Numeric value of a decimal digit character, if it is one. -/
def digitVal (c : Char) : Option Nat :=
  if c.isDigit then some (c.toNat - 48) else none

/-- Strict parser for `[year]-[month]-[day]` as used with `Date::parse` in
`main`: exactly four digits, a dash, exactly two digits, a dash, exactly two
digits, and the resulting triple must be a valid calendar date. -/
def parseDate (s : String) : Option Date :=
  match s.data with
  | [y1, y2, y3, y4, h1, m1, m2, h2, d1, d2] =>
    match digitVal y1, digitVal y2, digitVal y3, digitVal y4,
          digitVal m1, digitVal m2, digitVal d1, digitVal d2 with
    | some a, some b, some c, some d, some e, some f, some g, some h =>
      if h1 = '-' ∧ h2 = '-' then
        let y : Int := ((a * 1000 + b * 100 + c * 10 + d : Nat) : Int)
        let mo : Int := ((e * 10 + f : Nat) : Int)
        let dy : Int := ((g * 10 + h : Nat) : Int)
        if 1 ≤ mo ∧ mo ≤ 12 ∧ 1 ≤ dy ∧ dy ≤ daysInMonth y mo then
          some ⟨y, mo, dy⟩
        else none
      else none
    | _, _, _, _, _, _, _, _ => none
  | _ => none

/-- ASCII lowercase of a character, the effect of Rust's `to_lowercase` on
the characters this report meets. -/
def lowerChar (c : Char) : Char :=
  match c with
  | 'A' => 'a' | 'B' => 'b' | 'C' => 'c' | 'D' => 'd' | 'E' => 'e'
  | 'F' => 'f' | 'G' => 'g' | 'H' => 'h' | 'I' => 'i' | 'J' => 'j'
  | 'K' => 'k' | 'L' => 'l' | 'M' => 'm' | 'N' => 'n' | 'O' => 'o'
  | 'P' => 'p' | 'Q' => 'q' | 'R' => 'r' | 'S' => 's' | 'T' => 't'
  | 'U' => 'u' | 'V' => 'v' | 'W' => 'w' | 'X' => 'x' | 'Y' => 'y'
  | 'Z' => 'z'
  | other => other

/-- Unicode White_Space test, Rust's `char::is_whitespace` used by `trim`. -/
def isWs (c : Char) : Bool :=
  decide (c = ' ' ∨ c = '\t' ∨ c = '\n' ∨ c = '\u000B' ∨ c = '\u000C' ∨
    c = '\r' ∨ c = '\u0085' ∨ c = '\u00A0' ∨ c = '\u1680' ∨
    c = '\u2000' ∨ c = '\u2001' ∨ c = '\u2002' ∨ c = '\u2003' ∨
    c = '\u2004' ∨ c = '\u2005' ∨ c = '\u2006' ∨ c = '\u2007' ∨
    c = '\u2008' ∨ c = '\u2009' ∨ c = '\u200A' ∨ c = '\u2028' ∨
    c = '\u2029' ∨ c = '\u202F' ∨ c = '\u205F' ∨ c = '\u3000')

/-- Rust `str::trim`: drop whitespace from both ends. -/
def trimChars (l : List Char) : List Char :=
  ((l.dropWhile isWs).reverse.dropWhile isWs).reverse

/-- The A13 client-side activity-name filter of `collect_and_print`:
`act.name.to_lowercase().trim().starts_with("extern")`. -/
def keepName (s : String) : Bool :=
  List.isPrefixOf ("extern").data (trimChars (s.data.map lowerChar))

/-- Row of the `members` table, the fields this program reads. -/
structure Member where
  id : Int
  first_name : String
  last_name : String
  join_date : Date
deriving DecidableEq, Repr

/-- Row of the `educations` table, the fields this program reads. -/
structure Education where
  member_id : Int
  study_id : Int
  status : Int
deriving DecidableEq, Repr

/-- Row of the `studies` table, the fields this program reads. -/
structure Study where
  id : Int
  code : String
deriving DecidableEq, Repr

/-- Row of the `group_members` table, the field this program reads. -/
structure GroupMember where
  member_id : Int
deriving DecidableEq, Repr

/-- Row of the `activities` table, the fields this program reads. -/
structure Activity where
  id : Int
  name : String
  start_date : Date
deriving DecidableEq, Repr

/-- Row of the `participants` table, the fields this program reads. -/
structure Participant where
  member_id : Int
  activity_id : Int
deriving DecidableEq, Repr

/-- The database state the report runs against. -/
structure Db where
  members : List Member
  educations : List Education
  studies : List Study
  group_members : List GroupMember
  activities : List Activity
  participants : List Participant
deriving DecidableEq, Repr

/-- SQL `COUNT(DISTINCT x)` over a column of values, as an `i64`. -/
def countDistinct (l : List Int) : Int :=
  (l.dedup.length : Int)

/-- Result row shape of A2, A6 and A11: `(code, count)` as `CodeCount`. -/
structure CodeCount where
  code : String
  count : Int
deriving DecidableEq, Repr

/-- Result row shape of A8: `(join_year, members)` as `JoinYearMembers`. -/
structure JoinYearMembers where
  join_year : Int
  members : Int
deriving DecidableEq, Repr

/-- Result row shape of the scalar-count queries, as `OnlyCount`. -/
structure OnlyCount where
  count : Int
deriving DecidableEq, Repr

/-- Joined rows of the A2 query: members x educations x studies with
`educations.status = 0` (no date filter appears in this query). -/
def a2rows (db : Db) : List (Member × Education × Study) :=
  (db.members.product (db.educations.product db.studies)).filter fun r =>
    decide (r.1.id = r.2.1.member_id ∧ r.2.1.study_id = r.2.2.id ∧
      r.2.1.status = 0)

/-- Study codes of the A2 result, one bucket per distinct code
(`GROUP BY studies.code`). -/
def a2codes (db : Db) : List String :=
  ((a2rows db).map fun r => r.2.2.code).dedup

/-- The A2 `COUNT(DISTINCT members.id)` for one study-code bucket. -/
def a2countFor (db : Db) (c : String) : Int :=
  countDistinct (((a2rows db).filter fun r => decide (r.2.2.code = c)).map
    fun r => r.1.id)

/-- The A2 result set: one `CodeCount` row per study code. -/
def a2 (db : Db) : List CodeCount :=
  (a2codes db).map fun c => ⟨c, a2countFor db c⟩

/-- Joined rows of the A3 query: members x educations x studies with
`educations.status = 0 AND members.join_date > $1`. -/
def a3rows (db : Db) (start : Date) : List (Member × Education × Study) :=
  (db.members.product (db.educations.product db.studies)).filter fun r =>
    decide (r.1.id = r.2.1.member_id ∧ r.2.1.study_id = r.2.2.id ∧
      r.2.1.status = 0 ∧ dateLt start r.1.join_date = true)

/-- The A3 scalar `COUNT(DISTINCT members.id)`. -/
def a3count (db : Db) (start : Date) : Int :=
  countDistinct ((a3rows db start).map fun r => r.1.id)

/-- Joined rows of the A4 query: members x educations with
`members.join_date > $1 AND educations.study_id < 5` (no status filter,
no studies join). -/
def a4rows (db : Db) (start : Date) : List (Member × Education) :=
  (db.members.product db.educations).filter fun r =>
    decide (r.1.id = r.2.member_id ∧ dateLt start r.1.join_date = true ∧
      r.2.study_id < 5)

/-- The A4 scalar `COUNT(DISTINCT members.id)`. -/
def a4count (db : Db) (start : Date) : Int :=
  countDistinct ((a4rows db start).map fun r => r.1.id)

/-- Joined rows of the A5 query: members x educations with
`members.join_date > $1 AND educations.study_id > 4` (no status filter,
no studies join). -/
def a5rows (db : Db) (start : Date) : List (Member × Education) :=
  (db.members.product db.educations).filter fun r =>
    decide (r.1.id = r.2.member_id ∧ dateLt start r.1.join_date = true ∧
      4 < r.2.study_id)

/-- The A5 scalar `COUNT(DISTINCT members.id)`. -/
def a5count (db : Db) (start : Date) : Int :=
  countDistinct ((a5rows db start).map fun r => r.1.id)

/-- Joined rows of the A6 query: the A3 condition, grouped by code below. -/
def a6rows (db : Db) (start : Date) : List (Member × Education × Study) :=
  (db.members.product (db.educations.product db.studies)).filter fun r =>
    decide (r.1.id = r.2.1.member_id ∧ r.2.1.study_id = r.2.2.id ∧
      r.2.1.status = 0 ∧ dateLt start r.1.join_date = true)

/-- Study codes of the A6 result (`group by studies.code`). -/
def a6codes (db : Db) (start : Date) : List String :=
  ((a6rows db start).map fun r => r.2.2.code).dedup

/-- The A6 `COUNT(DISTINCT members.id)` for one study-code bucket. -/
def a6countFor (db : Db) (start : Date) (c : String) : Int :=
  countDistinct (((a6rows db start).filter fun r => decide (r.2.2.code = c)).map
    fun r => r.1.id)

/-- The A6 result set: one `CodeCount` row per study code. -/
def a6 (db : Db) (start : Date) : List CodeCount :=
  (a6codes db start).map fun c => ⟨c, a6countFor db start c⟩

/-- Joined rows of the A7 query: members x group_members with
`members.join_date > $1`. -/
def a7rows (db : Db) (start : Date) : List (Member × GroupMember) :=
  (db.members.product db.group_members).filter fun r =>
    decide (r.1.id = r.2.member_id ∧ dateLt start r.1.join_date = true)

/-- The A7 scalar `COUNT(DISTINCT(member_id))` (the `group_members` column). -/
def a7count (db : Db) (start : Date) : Int :=
  countDistinct ((a7rows db start).map fun r => r.2.member_id)

/-- Length of `generate_series('2010-08-01'::date, $1::date, '1 year')`:
the number of dates `(2010+k)-08-01` that are `<=` the bound. -/
def seriesLen (start : Date) : Nat :=
  if dateLe ⟨2010, 8, 1⟩ start then
    (start.year - 2010).toNat + (if dateLe ⟨start.year, 8, 1⟩ start then 1 else 0)
  else 0

/-- PostgreSQL `generate_series('2010-08-01'::date, $1::date, '1 year')`:
August 1sts from 2010 on, while still at most the bound. -/
def generate_series (start : Date) : List Date :=
  (List.range (seriesLen start)).map fun k : Nat => ⟨2010 + (k : Int), 8, 1⟩

/-- The A8 result: for each generated series date, its year (`EXTRACT(YEAR)`)
and the distinct count of members with
`join_date > gs AND join_date <= gs + interval '1 year'`; a series date with
no matching members keeps its row with count 0 (`LEFT JOIN` + `filter`). -/
def a8 (db : Db) (start : Date) : List JoinYearMembers :=
  (generate_series start).map fun gs =>
    ⟨gs.year,
     countDistinct ((db.members.filter fun m =>
       dateLt gs m.join_date && dateLe m.join_date (addYear gs)).map
         fun m => m.id)⟩

/-- Joined rows of the A11 query: members x group_members x educations x
studies with `educations.status = 0 AND members.join_date > $1`. -/
def a11rows (db : Db) (start : Date) :
    List (Member × GroupMember × Education × Study) :=
  (db.members.product
    (db.group_members.product (db.educations.product db.studies))).filter
      fun r =>
        decide (r.1.id = r.2.1.member_id ∧ r.1.id = r.2.2.1.member_id ∧
          r.2.2.1.study_id = r.2.2.2.id ∧ r.2.2.1.status = 0 ∧
          dateLt start r.1.join_date = true)

/-- Study codes of the A11 result (`group by studies.code`). -/
def a11codes (db : Db) (start : Date) : List String :=
  ((a11rows db start).map fun r => r.2.2.2.code).dedup

/-- The A11 `COUNT(DISTINCT members.id)` for one study-code bucket. -/
def a11countFor (db : Db) (start : Date) (c : String) : Int :=
  countDistinct (((a11rows db start).filter fun r =>
    decide (r.2.2.2.code = c)).map fun r => r.1.id)

/-- The A11 result set: one `CodeCount` row per study code. -/
def a11 (db : Db) (start : Date) : List CodeCount :=
  (a11codes db start).map fun c => ⟨c, a11countFor db start c⟩

/-- Inner subquery of A12 (`dinges`): `SELECT DISTINCT` of
`(members.id, first_name, last_name, participants.activity_id)` over the
members x participants join with `members.join_date > $1`. -/
def a12inner (db : Db) (start : Date) : List (Int × String × String × Int) :=
  (((db.members.product db.participants).filter fun r =>
      decide (r.1.id = r.2.member_id ∧ dateLt start r.1.join_date = true)).map
    fun r => (r.1.id, r.1.first_name, r.1.last_name, r.2.activity_id)).dedup

/-- The A12 scalar: `COUNT(DISTINCT lid_id)` of the inner rows joined to
activities with `activities.start_date > $2`. -/
def a12count (db : Db) (start nova : Date) : Int :=
  countDistinct ((((a12inner db start).product db.activities).filter fun r =>
    decide (r.1.2.2.2 = r.2.id ∧ dateLt nova r.2.start_date = true)).map
      fun r => r.1.1)

/-- Activity ids kept by the A13 client-side step: rows of
`SELECT id,name FROM activities WHERE start_date > $1`, filtered in Rust by
`name.to_lowercase().trim().starts_with("extern")`, mapped to their id. -/
def extActivities (db : Db) (start : Date) : List Int :=
  (((db.activities.filter fun a => dateLt start a.start_date).filter
    fun a => keepName a.name).map fun a => a.id)

/-- Inner subquery of the A13 count (`dinges`): `SELECT DISTINCT` of
`(members.id, participants.activity_id)` over the unfiltered
members x participants join. -/
def a13innerRows (db : Db) : List (Int × Int) :=
  (((db.members.product db.participants).filter fun r =>
      decide (r.1.id = r.2.member_id)).map
    fun r => (r.1.id, r.2.activity_id)).dedup

/-- The A13 scalar as a function of the bound id array: `COUNT(DISTINCT
lid_id)` over the inner rows joined to activities with
`activities.id IN (SELECT unnest($1::integer[]))`. -/
def a13count (db : Db) (ids : List Int) : Int :=
  countDistinct ((((a13innerRows db).product db.activities).filter fun r =>
    decide (r.1.2 = r.2.id ∧ r.2.id ∈ ids)).map fun r => r.1.1)

/-- The full A13 pipeline: client-side filter, then the count query. -/
def a13 (db : Db) (start : Date) : Int :=
  a13count db (extActivities db start)

/-- Body of a printed report section. -/
inductive SectionBody where
  | codeRows (rows : List CodeCount)
  | yearRows (rows : List JoinYearMembers)
  | scalar (value : OnlyCount)
deriving DecidableEq, Repr

/-- One printed section: its title line, the rendered rows, and the value of
the `Sum:` line printed directly beneath the table, when there is one. -/
structure ReportSection where
  title : String
  body : SectionBody
  sumLine : Option Int
deriving DecidableEq, Repr

/-- The whole printed report, one field per section, in print order. -/
structure Report where
  secA2 : ReportSection
  secA3 : ReportSection
  secA4 : ReportSection
  secA5 : ReportSection
  secA6 : ReportSection
  secA7 : ReportSection
  secA8 : ReportSection
  secA11 : ReportSection
  secA12 : ReportSection
  secA13 : ReportSection
deriving DecidableEq, Repr

/-- The report printed by `collect_and_print`: titles as in the source, sums
computed client-side for A2, A6 and A11 only. -/
def runReport (db : Db) (start nova : Date) : Report :=
  ⟨⟨"A2 - Verdeling studies", .codeRows (a2 db),
      some (((a2 db).map fun x => x.count).sum)⟩,
   ⟨"A3 - Nieuwe leden", .scalar ⟨a3count db start⟩, none⟩,
   ⟨"A4 - Nieuwe bachelor", .scalar ⟨a4count db start⟩, none⟩,
   ⟨"A5 - Nieuew master", .scalar ⟨a5count db start⟩, none⟩,
   ⟨"A6 - Verdeling studies nieuwe leden", .codeRows (a6 db start),
      some (((a6 db start).map fun x => x.count).sum)⟩,
   ⟨"A7 - Nieuwe actieve leden", .scalar ⟨a7count db start⟩, none⟩,
   ⟨"A8 - Nieuwe leden sinds 2010", .yearRows (a8 db start), none⟩,
   ⟨"A11 - Verdeling nieuwe actieve leden", .codeRows (a11 db start),
      some (((a11 db start).map fun x => x.count).sum)⟩,
   ⟨"A12 - Sjaars bij activiteiten", .scalar ⟨a12count db start nova⟩, none⟩,
   ⟨"A13 - Leden bij Extern activiteiten",
      .scalar ⟨a13 db start⟩, none⟩⟩

/-- Observable effects of `main`, in order. -/
inductive Event where
  | connect
  | runQuery (label : String)
deriving DecidableEq, Repr

/-- Query events of `collect_and_print`, in execution order (A13 issues two
queries: the activity fetch and the participant count). -/
def queryEvents : List Event :=
  [Event.runQuery ("A2"), Event.runQuery ("A3"), Event.runQuery ("A4"),
   Event.runQuery ("A5"), Event.runQuery ("A6"), Event.runQuery ("A7"),
   Event.runQuery ("A8"), Event.runQuery ("A11"), Event.runQuery ("A12"),
   Event.runQuery ("A13 activities"), Event.runQuery ("A13 count")]

/-- Effect trace and outcome of `main` on argument dates `d1`, `d2` against
database `db` (connection assumed reachable): the source connects first
(line 41), then parses the two dates (lines 44-51), then runs the queries.
A parse failure aborts after the connection but before any query. -/
def mainEvents (d1 d2 : String) (db : Db) : List Event × Option Report :=
  match parseDate d1 with
  | none => ([Event.connect], none)
  | some start =>
    match parseDate d2 with
    | none => ([Event.connect], none)
    | some nova => ([Event.connect] ++ queryEvents, some (runReport db start nova))

/-- The A13 name predicate as the spec words it: trim the whitespace first,
then compare case-insensitively against the prefix "extern". -/
def specKeep (s : String) : Bool :=
  List.isPrefixOf ("extern").data ((trimChars s.data).map lowerChar)

/-- Spec-side A2 qualification of one member: some active education in some
study with the given code. -/
def a2memberQual (db : Db) (c : String) (m : Member) : Bool :=
  db.educations.any fun e => db.studies.any fun s =>
    decide (m.id = e.member_id ∧ e.study_id = s.id ∧ e.status = 0 ∧ s.code = c)

/-- Spec-side A2 bucket value: distinct ids of qualifying members. -/
def a2distinct (db : Db) (c : String) : Int :=
  countDistinct ((db.members.filter (a2memberQual db c)).map fun m => m.id)

/-- Spec-side A6 qualification of one member. -/
def a6memberQual (db : Db) (start : Date) (c : String) (m : Member) : Bool :=
  db.educations.any fun e => db.studies.any fun s =>
    decide (m.id = e.member_id ∧ e.study_id = s.id ∧ e.status = 0 ∧
      s.code = c ∧ dateLt start m.join_date = true)

/-- Spec-side A6 bucket value: distinct ids of qualifying members. -/
def a6distinct (db : Db) (start : Date) (c : String) : Int :=
  countDistinct ((db.members.filter (a6memberQual db start c)).map fun m => m.id)

/-- Spec-side A3 qualification of one member. -/
def a3memberQual (db : Db) (start : Date) (m : Member) : Bool :=
  db.educations.any fun e => db.studies.any fun s =>
    decide (m.id = e.member_id ∧ e.study_id = s.id ∧ e.status = 0 ∧
      dateLt start m.join_date = true)

/-- Spec-side A3 value: distinct ids of qualifying members. -/
def a3distinct (db : Db) (start : Date) : Int :=
  countDistinct ((db.members.filter (a3memberQual db start)).map fun m => m.id)

/-- Spec-side A4 qualification of one member. -/
def a4memberQual (db : Db) (start : Date) (m : Member) : Bool :=
  db.educations.any fun e =>
    decide (m.id = e.member_id ∧ dateLt start m.join_date = true ∧
      e.study_id < 5)

/-- Spec-side A4 value: distinct ids of qualifying members. -/
def a4distinct (db : Db) (start : Date) : Int :=
  countDistinct ((db.members.filter (a4memberQual db start)).map fun m => m.id)

/-- Spec-side A5 qualification of one member. -/
def a5memberQual (db : Db) (start : Date) (m : Member) : Bool :=
  db.educations.any fun e =>
    decide (m.id = e.member_id ∧ dateLt start m.join_date = true ∧
      4 < e.study_id)

/-- Spec-side A5 value: distinct ids of qualifying members. -/
def a5distinct (db : Db) (start : Date) : Int :=
  countDistinct ((db.members.filter (a5memberQual db start)).map fun m => m.id)

/-- Spec-side A7 qualification of one member: at least one group membership. -/
def a7memberQual (db : Db) (start : Date) (m : Member) : Bool :=
  db.group_members.any fun g =>
    decide (m.id = g.member_id ∧ dateLt start m.join_date = true)

/-- Spec-side A7 value: distinct ids of qualifying members. -/
def a7distinct (db : Db) (start : Date) : Int :=
  countDistinct ((db.members.filter (a7memberQual db start)).map fun m => m.id)

/-- Spec-side A12 qualification of one member: joined after the study-year
start and attended some activity starting after the cutoff. -/
def a12memberQual (db : Db) (start nova : Date) (m : Member) : Bool :=
  db.participants.any fun p => db.activities.any fun a =>
    decide (m.id = p.member_id ∧ p.activity_id = a.id ∧
      dateLt start m.join_date = true ∧ dateLt nova a.start_date = true)

/-- Spec-side A12 value: distinct ids of qualifying members. -/
def a12distinct (db : Db) (start nova : Date) : Int :=
  countDistinct ((db.members.filter (a12memberQual db start nova)).map
    fun m => m.id)

/-- Spec-side A13 qualification of one member: attended some activity whose
id is in the bound id list. -/
def a13memberQual (db : Db) (ids : List Int) (m : Member) : Bool :=
  db.participants.any fun p => db.activities.any fun a =>
    decide (m.id = p.member_id ∧ p.activity_id = a.id ∧ a.id ∈ ids)

/-- Spec-side A13 value: distinct ids of qualifying members. -/
def a13distinct (db : Db) (ids : List Int) : Int :=
  countDistinct ((db.members.filter (a13memberQual db ids)).map fun m => m.id)

/-- Study-year start used by the concrete scenarios: 2022-09-01. -/
def exStart : Date := ⟨2022, 9, 1⟩

/-- Cutoff date used by the concrete scenarios: 2022-10-01. -/
def exNova : Date := ⟨2022, 10, 1⟩

/-- Database with no rows at all. -/
def emptyDb : Db := ⟨[], [], [], [], [], []⟩

/-- Scenario database: one member who joined 2020-01-01 (before `exStart`),
with an active education in study 1 (code "CS"), and a participation in an
activity named "Extern Feest" starting 2022-10-05. -/
def exDb1 : Db :=
  ⟨[⟨1, "Ada", "Lovelace", ⟨2020, 1, 1⟩⟩],
   [⟨1, 1, 0⟩],
   [⟨1, "CS"⟩],
   [],
   [⟨1, "Extern Feest", ⟨2022, 10, 5⟩⟩],
   [⟨1, 1⟩]⟩

/-- Scenario database for C5: one member who joined 2023-01-01 (after
`exStart`) whose only education has status 1 (not active) in study 3, with
an empty `studies` table. -/
def exDb5 : Db :=
  ⟨[⟨1, "Ada", "Lovelace", ⟨2023, 1, 1⟩⟩], [⟨1, 3, 1⟩], [], [], [], []⟩

/-- Scenario database for C5's amended claim: one member who joined
2023-01-01 with a single active education in study 1 (code "CS"). -/
def wDb5 : Db :=
  ⟨[⟨1, "Ada", "Lovelace", ⟨2023, 1, 1⟩⟩], [⟨1, 1, 0⟩], [⟨1, "CS"⟩], [], [], []⟩

/-- Scenario database for C9: one member who joined 2023-01-01 with two
active educations, in studies 1 and 2, both of code "CS". -/
def dupDb : Db :=
  ⟨[⟨1, "Ada", "Lovelace", ⟨2023, 1, 1⟩⟩],
   [⟨1, 1, 0⟩, ⟨1, 2, 0⟩],
   [⟨1, "CS"⟩, ⟨2, "CS"⟩],
   [],
   [],
   []⟩

/-- Study-year start for the C4 counterexample: 2023-05-01, which lies
before August 1st of its own year. -/
def exStart4 : Date := ⟨2023, 5, 1⟩

/-- Counting distinct values is the cardinality of the set of values. -/
lemma countDistinct_eq_card (l : List Int) :
    countDistinct l = (l.toFinset.card : Int) := by
  unfold countDistinct
  rw [List.card_toFinset]

/-- Two columns with the same membership have the same distinct count. -/
lemma countDistinct_congr {l₁ l₂ : List Int} (h : ∀ x, x ∈ l₁ ↔ x ∈ l₂) :
    countDistinct l₁ = countDistinct l₂ := by
  have ht : l₁.toFinset = l₂.toFinset := by
    ext x
    simp only [List.mem_toFinset]
    exact h x
  rw [countDistinct_eq_card, countDistinct_eq_card, ht]

/-- Membership in the id column of the A3 join. -/
lemma mem_a3ids (db : Db) (start : Date) (x : Int) :
    (x ∈ (a3rows db start).map fun r => r.1.id) ↔
      ∃ m ∈ db.members, ∃ e ∈ db.educations, ∃ s ∈ db.studies,
        m.id = e.member_id ∧ e.study_id = s.id ∧ e.status = 0 ∧
        dateLt start m.join_date = true ∧ m.id = x := by
  simp only [a3rows, List.product, List.mem_map, List.mem_filter,
    List.mem_flatMap, decide_eq_true_eq]
  constructor
  · rintro ⟨r, ⟨⟨m, hm, es, ⟨e, he, s, hs, rfl⟩, rfl⟩, h1, h2, h3, h4⟩, rfl⟩
    exact ⟨m, hm, e, he, s, hs, h1, h2, h3, h4, rfl⟩
  · rintro ⟨m, hm, e, he, s, hs, h1, h2, h3, h4, rfl⟩
    exact ⟨(m, e, s), ⟨⟨m, hm, (e, s), ⟨e, he, s, hs, rfl⟩, rfl⟩, h1, h2, h3, h4⟩, rfl⟩

/-- Membership in the id column of the A4 join. -/
lemma mem_a4ids (db : Db) (start : Date) (x : Int) :
    (x ∈ (a4rows db start).map fun r => r.1.id) ↔
      ∃ m ∈ db.members, ∃ e ∈ db.educations,
        m.id = e.member_id ∧ dateLt start m.join_date = true ∧
        e.study_id < 5 ∧ m.id = x := by
  simp only [a4rows, List.product, List.mem_map, List.mem_filter,
    List.mem_flatMap, decide_eq_true_eq]
  constructor
  · rintro ⟨r, ⟨⟨m, hm, e, he, rfl⟩, h1, h2, h3⟩, rfl⟩
    exact ⟨m, hm, e, he, h1, h2, h3, rfl⟩
  · rintro ⟨m, hm, e, he, h1, h2, h3, rfl⟩
    exact ⟨(m, e), ⟨⟨m, hm, e, he, rfl⟩, h1, h2, h3⟩, rfl⟩

/-- Membership in the id column of the A5 join. -/
lemma mem_a5ids (db : Db) (start : Date) (x : Int) :
    (x ∈ (a5rows db start).map fun r => r.1.id) ↔
      ∃ m ∈ db.members, ∃ e ∈ db.educations,
        m.id = e.member_id ∧ dateLt start m.join_date = true ∧
        4 < e.study_id ∧ m.id = x := by
  simp only [a5rows, List.product, List.mem_map, List.mem_filter,
    List.mem_flatMap, decide_eq_true_eq]
  constructor
  · rintro ⟨r, ⟨⟨m, hm, e, he, rfl⟩, h1, h2, h3⟩, rfl⟩
    exact ⟨m, hm, e, he, h1, h2, h3, rfl⟩
  · rintro ⟨m, hm, e, he, h1, h2, h3, rfl⟩
    exact ⟨(m, e), ⟨⟨m, hm, e, he, rfl⟩, h1, h2, h3⟩, rfl⟩

/-- Membership in the id column of one A2 code bucket. -/
lemma mem_a2ids (db : Db) (c : String) (x : Int) :
    (x ∈ ((a2rows db).filter fun r => decide (r.2.2.code = c)).map
      fun r => r.1.id) ↔
      ∃ m ∈ db.members, ∃ e ∈ db.educations, ∃ s ∈ db.studies,
        m.id = e.member_id ∧ e.study_id = s.id ∧ e.status = 0 ∧
        s.code = c ∧ m.id = x := by
  simp only [a2rows, List.product, List.mem_map, List.mem_filter,
    List.mem_flatMap, decide_eq_true_eq]
  constructor
  · rintro ⟨r, ⟨⟨⟨m, hm, es, ⟨e, he, s, hs, rfl⟩, rfl⟩, h1, h2, h3⟩, h4⟩, rfl⟩
    exact ⟨m, hm, e, he, s, hs, h1, h2, h3, h4, rfl⟩
  · rintro ⟨m, hm, e, he, s, hs, h1, h2, h3, h4, rfl⟩
    exact ⟨(m, e, s), ⟨⟨⟨m, hm, (e, s), ⟨e, he, s, hs, rfl⟩, rfl⟩, h1, h2, h3⟩, h4⟩, rfl⟩

/-- Membership in the id column of one A6 code bucket. -/
lemma mem_a6ids (db : Db) (start : Date) (c : String) (x : Int) :
    (x ∈ ((a6rows db start).filter fun r => decide (r.2.2.code = c)).map
      fun r => r.1.id) ↔
      ∃ m ∈ db.members, ∃ e ∈ db.educations, ∃ s ∈ db.studies,
        m.id = e.member_id ∧ e.study_id = s.id ∧ e.status = 0 ∧
        dateLt start m.join_date = true ∧ s.code = c ∧ m.id = x := by
  simp only [a6rows, List.product, List.mem_map, List.mem_filter,
    List.mem_flatMap, decide_eq_true_eq]
  constructor
  · rintro ⟨r, ⟨⟨⟨m, hm, es, ⟨e, he, s, hs, rfl⟩, rfl⟩, h1, h2, h3, h4⟩, h5⟩, rfl⟩
    exact ⟨m, hm, e, he, s, hs, h1, h2, h3, h4, h5, rfl⟩
  · rintro ⟨m, hm, e, he, s, hs, h1, h2, h3, h4, h5, rfl⟩
    exact ⟨(m, e, s), ⟨⟨⟨m, hm, (e, s), ⟨e, he, s, hs, rfl⟩, rfl⟩, h1, h2, h3, h4⟩, h5⟩, rfl⟩

/-- Membership in the counted column of the A7 join. -/
lemma mem_a7ids (db : Db) (start : Date) (x : Int) :
    (x ∈ (a7rows db start).map fun r => r.2.member_id) ↔
      ∃ m ∈ db.members, ∃ g ∈ db.group_members,
        m.id = g.member_id ∧ dateLt start m.join_date = true ∧
        g.member_id = x := by
  simp only [a7rows, List.product, List.mem_map, List.mem_filter,
    List.mem_flatMap, decide_eq_true_eq]
  constructor
  · rintro ⟨r, ⟨⟨m, hm, g, hg, rfl⟩, h1, h2⟩, rfl⟩
    exact ⟨m, hm, g, hg, h1, h2, rfl⟩
  · rintro ⟨m, hm, g, hg, h1, h2, rfl⟩
    exact ⟨(m, g), ⟨⟨m, hm, g, hg, rfl⟩, h1, h2⟩, rfl⟩

/-- Membership in the counted lid column of the A12 query. -/
lemma mem_a12ids (db : Db) (start nova : Date) (x : Int) :
    (x ∈ (((a12inner db start).product db.activities).filter fun r =>
      decide (r.1.2.2.2 = r.2.id ∧ dateLt nova r.2.start_date = true)).map
        fun r => r.1.1) ↔
      ∃ m ∈ db.members, ∃ p ∈ db.participants, ∃ a ∈ db.activities,
        m.id = p.member_id ∧ p.activity_id = a.id ∧
        dateLt start m.join_date = true ∧ dateLt nova a.start_date = true ∧
        m.id = x := by
  simp only [a12inner, List.product, List.mem_map, List.mem_filter,
    List.mem_flatMap, List.mem_dedup, decide_eq_true_eq]
  constructor
  · rintro ⟨r, ⟨⟨t, ⟨mp, ⟨⟨m, hm, p, hp, rfl⟩, h1, h2⟩, rfl⟩, a, ha, rfl⟩,
      h3, h4⟩, rfl⟩
    exact ⟨m, hm, p, hp, a, ha, h1, h3, h2, h4, rfl⟩
  · rintro ⟨m, hm, p, hp, a, ha, h1, h2, h3, h4, rfl⟩
    exact ⟨((m.id, m.first_name, m.last_name, p.activity_id), a),
      ⟨⟨(m.id, m.first_name, m.last_name, p.activity_id),
        ⟨(m, p), ⟨⟨m, hm, p, hp, rfl⟩, h1, h3⟩, rfl⟩, a, ha, rfl⟩, h2, h4⟩, rfl⟩

/-- Membership in the counted lid column of the A13 count query. -/
lemma mem_a13ids (db : Db) (ids : List Int) (x : Int) :
    (x ∈ (((a13innerRows db).product db.activities).filter fun r =>
      decide (r.1.2 = r.2.id ∧ r.2.id ∈ ids)).map fun r => r.1.1) ↔
      ∃ m ∈ db.members, ∃ p ∈ db.participants, ∃ a ∈ db.activities,
        m.id = p.member_id ∧ p.activity_id = a.id ∧ a.id ∈ ids ∧
        m.id = x := by
  simp only [a13innerRows, List.product, List.mem_map, List.mem_filter,
    List.mem_flatMap, List.mem_dedup, decide_eq_true_eq]
  constructor
  · rintro ⟨r, ⟨⟨t, ⟨mp, ⟨⟨m, hm, p, hp, rfl⟩, h1⟩, rfl⟩, a, ha, rfl⟩,
      h2, h3⟩, rfl⟩
    exact ⟨m, hm, p, hp, a, ha, h1, h2, h3, rfl⟩
  · rintro ⟨m, hm, p, hp, a, ha, h1, h2, h3, rfl⟩
    exact ⟨((m.id, p.activity_id), a),
      ⟨⟨(m.id, p.activity_id), ⟨(m, p), ⟨⟨m, hm, p, hp, rfl⟩, h1⟩, rfl⟩,
        a, ha, rfl⟩, h2, h3⟩, rfl⟩

/-- The A2 bucket count equals the distinct count of qualifying members. -/
lemma a2count_distinct (db : Db) (c : String) :
    a2countFor db c = a2distinct db c := by
  apply countDistinct_congr
  intro x
  rw [mem_a2ids]
  simp only [a2distinct, a2memberQual, List.mem_map, List.mem_filter,
    List.any_eq_true, decide_eq_true_eq]
  constructor
  · rintro ⟨m, hm, e, he, s, hs, h1, h2, h3, h4, rfl⟩
    exact ⟨m, ⟨hm, e, he, s, hs, h1, h2, h3, h4⟩, rfl⟩
  · rintro ⟨m, ⟨hm, e, he, s, hs, h1, h2, h3, h4⟩, rfl⟩
    exact ⟨m, hm, e, he, s, hs, h1, h2, h3, h4, rfl⟩

/-- The A6 bucket count equals the distinct count of qualifying members. -/
lemma a6count_distinct (db : Db) (start : Date) (c : String) :
    a6countFor db start c = a6distinct db start c := by
  apply countDistinct_congr
  intro x
  rw [mem_a6ids]
  simp only [a6distinct, a6memberQual, List.mem_map, List.mem_filter,
    List.any_eq_true, decide_eq_true_eq]
  constructor
  · rintro ⟨m, hm, e, he, s, hs, h1, h2, h3, h4, h5, rfl⟩
    exact ⟨m, ⟨hm, e, he, s, hs, h1, h2, h3, h5, h4⟩, rfl⟩
  · rintro ⟨m, ⟨hm, e, he, s, hs, h1, h2, h3, h5, h4⟩, rfl⟩
    exact ⟨m, hm, e, he, s, hs, h1, h2, h3, h4, h5, rfl⟩

/-- The A3 count equals the distinct count of qualifying members. -/
lemma a3count_distinct (db : Db) (start : Date) :
    a3count db start = a3distinct db start := by
  apply countDistinct_congr
  intro x
  rw [mem_a3ids]
  simp only [a3distinct, a3memberQual, List.mem_map, List.mem_filter,
    List.any_eq_true, decide_eq_true_eq]
  constructor
  · rintro ⟨m, hm, e, he, s, hs, h1, h2, h3, h4, rfl⟩
    exact ⟨m, ⟨hm, e, he, s, hs, h1, h2, h3, h4⟩, rfl⟩
  · rintro ⟨m, ⟨hm, e, he, s, hs, h1, h2, h3, h4⟩, rfl⟩
    exact ⟨m, hm, e, he, s, hs, h1, h2, h3, h4, rfl⟩

/-- The A4 count equals the distinct count of qualifying members. -/
lemma a4count_distinct (db : Db) (start : Date) :
    a4count db start = a4distinct db start := by
  apply countDistinct_congr
  intro x
  rw [mem_a4ids]
  simp only [a4distinct, a4memberQual, List.mem_map, List.mem_filter,
    List.any_eq_true, decide_eq_true_eq]
  constructor
  · rintro ⟨m, hm, e, he, h1, h2, h3, rfl⟩
    exact ⟨m, ⟨hm, e, he, h1, h2, h3⟩, rfl⟩
  · rintro ⟨m, ⟨hm, e, he, h1, h2, h3⟩, rfl⟩
    exact ⟨m, hm, e, he, h1, h2, h3, rfl⟩

/-- The A5 count equals the distinct count of qualifying members. -/
lemma a5count_distinct (db : Db) (start : Date) :
    a5count db start = a5distinct db start := by
  apply countDistinct_congr
  intro x
  rw [mem_a5ids]
  simp only [a5distinct, a5memberQual, List.mem_map, List.mem_filter,
    List.any_eq_true, decide_eq_true_eq]
  constructor
  · rintro ⟨m, hm, e, he, h1, h2, h3, rfl⟩
    exact ⟨m, ⟨hm, e, he, h1, h2, h3⟩, rfl⟩
  · rintro ⟨m, ⟨hm, e, he, h1, h2, h3⟩, rfl⟩
    exact ⟨m, hm, e, he, h1, h2, h3, rfl⟩

/-- The A7 count equals the distinct count of qualifying members. -/
lemma a7count_distinct (db : Db) (start : Date) :
    a7count db start = a7distinct db start := by
  apply countDistinct_congr
  intro x
  rw [mem_a7ids]
  simp only [a7distinct, a7memberQual, List.mem_map, List.mem_filter,
    List.any_eq_true, decide_eq_true_eq]
  constructor
  · rintro ⟨m, hm, g, hg, h1, h2, rfl⟩
    exact ⟨m, ⟨hm, g, hg, h1, h2⟩, h1⟩
  · rintro ⟨m, ⟨hm, g, hg, h1, h2⟩, rfl⟩
    exact ⟨m, hm, g, hg, h1, h2, h1.symm⟩

/-- The A12 count equals the distinct count of qualifying members. -/
lemma a12count_distinct (db : Db) (start nova : Date) :
    a12count db start nova = a12distinct db start nova := by
  apply countDistinct_congr
  intro x
  rw [mem_a12ids]
  simp only [a12distinct, a12memberQual, List.mem_map, List.mem_filter,
    List.any_eq_true, decide_eq_true_eq]
  constructor
  · rintro ⟨m, hm, p, hp, a, ha, h1, h2, h3, h4, rfl⟩
    exact ⟨m, ⟨hm, p, hp, a, ha, h1, h2, h3, h4⟩, rfl⟩
  · rintro ⟨m, ⟨hm, p, hp, a, ha, h1, h2, h3, h4⟩, rfl⟩
    exact ⟨m, hm, p, hp, a, ha, h1, h2, h3, h4, rfl⟩

/-- The A13 count equals the distinct count of qualifying members. -/
lemma a13count_distinct (db : Db) (ids : List Int) :
    a13count db ids = a13distinct db ids := by
  apply countDistinct_congr
  intro x
  rw [mem_a13ids]
  simp only [a13distinct, a13memberQual, List.mem_map, List.mem_filter,
    List.any_eq_true, decide_eq_true_eq]
  constructor
  · rintro ⟨m, hm, p, hp, a, ha, h1, h2, h3, rfl⟩
    exact ⟨m, ⟨hm, p, hp, a, ha, h1, h2, h3⟩, rfl⟩
  · rintro ⟨m, ⟨hm, p, hp, a, ha, h1, h2, h3⟩, rfl⟩
    exact ⟨m, hm, p, hp, a, ha, h1, h2, h3, rfl⟩

/-- Boolean chronological strict order unfolded to arithmetic. -/
lemma dateLt_iff (a b : Date) : dateLt a b = true ↔
    (a.year < b.year ∨ (a.year = b.year ∧
      (a.month < b.month ∨ (a.month = b.month ∧ a.day < b.day)))) := by
  simp [dateLt]

/-- Boolean chronological order unfolded to arithmetic. -/
lemma dateLe_iff (a b : Date) : dateLe a b = true ↔
    (a.year < b.year ∨ (a.year = b.year ∧
      (a.month < b.month ∨ (a.month = b.month ∧ a.day ≤ b.day)))) := by
  obtain ⟨ay, am, ad⟩ := a
  obtain ⟨by_, bm, bd⟩ := b
  simp [dateLe, dateLt, Date.mk.injEq]
  omega

/-- A series index is generated exactly when its August 1st is in bounds. -/
lemma lt_seriesLen_iff (start : Date) (k : Nat) :
    k < seriesLen start ↔ dateLe ⟨2010 + (k : Int), 8, 1⟩ start = true := by
  obtain ⟨sy, sm, sd⟩ := start
  simp only [seriesLen]
  split_ifs with h1 h2
  · rw [dateLe_iff] at h1 h2 ⊢
    simp only at h1 h2 ⊢
    simp only [lt_irrefl, false_or, true_and] at h2
    omega
  · rw [dateLe_iff] at h1 h2 ⊢
    simp only at h1 h2 ⊢
    simp only [lt_irrefl, false_or, true_and] at h2
    omega
  · rw [dateLe_iff] at h1 ⊢
    simp only at h1 ⊢
    omega

/-- A year is in the generated series exactly when it is at least 2010 and
its August 1st is at most the bound. -/
lemma mem_series_iff (start : Date) (y : Int) :
    (y ∈ (generate_series start).map fun d => d.year) ↔
      (2010 ≤ y ∧ dateLe ⟨y, 8, 1⟩ start = true) := by
  constructor
  · intro h
    obtain ⟨d, hd, rfl⟩ := List.mem_map.mp h
    obtain ⟨k, hk, rfl⟩ := List.mem_map.mp hd
    rw [List.mem_range, lt_seriesLen_iff] at hk
    refine ⟨?_, hk⟩
    show (2010 : Int) ≤ 2010 + (k : Int)
    omega
  · rintro ⟨hy, hle⟩
    have hcast : (2010 : Int) + (((y - 2010).toNat : Nat) : Int) = y := by
      omega
    apply List.mem_map.mpr
    refine ⟨⟨y, 8, 1⟩, ?_, rfl⟩
    apply List.mem_map.mpr
    refine ⟨(y - 2010).toNat, ?_, ?_⟩
    · rw [List.mem_range, lt_seriesLen_iff, hcast]
      exact hle
    · show (⟨2010 + (((y - 2010).toNat : Nat) : Int), 8, 1⟩ : Date) = ⟨y, 8, 1⟩
      rw [hcast]

/-- The year column of A8 is the year column of the generated series. -/
lemma a8_years (db : Db) (start : Date) :
    ((a8 db start).map fun r => r.join_year) =
      (generate_series start).map fun d => d.year := by
  simp only [a8, List.map_map]
  rfl

/-- Lowercasing preserves whether a character is whitespace. -/
lemma isWs_lowerChar (c : Char) : isWs (lowerChar c) = isWs c := by
  unfold lowerChar
  split <;> rfl

/-- Dropping leading whitespace commutes with lowercasing. -/
lemma dropWhile_map_lower (l : List Char) :
    (l.map lowerChar).dropWhile isWs = (l.dropWhile isWs).map lowerChar := by
  induction l with
  | nil => rfl
  | cons c t ih =>
    simp only [List.map_cons, List.dropWhile_cons, isWs_lowerChar]
    split <;> simp [ih]

/-- Trimming commutes with lowercasing. -/
lemma trim_map_lower (l : List Char) :
    trimChars (l.map lowerChar) = (trimChars l).map lowerChar := by
  unfold trimChars
  rw [dropWhile_map_lower, ← List.map_reverse, dropWhile_map_lower,
    ← List.map_reverse]

/-- Claim C1, counterexample: the claim says every query from A2 through A13
considers only members with join_date strictly after the study-year start.
In `exDb1` the only member joined 2020-01-01, which is on or before the
start 2022-09-01, yet the A2 bucket for "CS" counts 1 member and the A13
count is 1: A2 and A13 apply no join_date restriction. -/
theorem C1_counterexample :
    dateLe (⟨2020, 1, 1⟩ : Date) exStart = true ∧
    exDb1.members = [⟨1, "Ada", "Lovelace", ⟨2020, 1, 1⟩⟩] ∧
    a2 exDb1 = [⟨"CS", 1⟩] ∧
    a13 exDb1 exStart = 1 := by
  refine ⟨by decide, rfl, by decide, by decide⟩

/-- Claim C1, amended: the join_date > study-year-start restriction holds
for the queries that bind the date against members.join_date, namely A3,
A4, A5, A6, A7, A11 and A12 (there through the inner subquery); it does not
hold for A2, A8 or A13. -/
theorem C1_amended (db : Db) (start : Date) :
    (∀ r ∈ a3rows db start, dateLt start r.1.join_date = true) ∧
    (∀ r ∈ a4rows db start, dateLt start r.1.join_date = true) ∧
    (∀ r ∈ a5rows db start, dateLt start r.1.join_date = true) ∧
    (∀ r ∈ a6rows db start, dateLt start r.1.join_date = true) ∧
    (∀ r ∈ a7rows db start, dateLt start r.1.join_date = true) ∧
    (∀ r ∈ a11rows db start, dateLt start r.1.join_date = true) ∧
    (∀ t ∈ a12inner db start, ∃ m ∈ db.members,
      m.id = t.1 ∧ dateLt start m.join_date = true) := by
  refine ⟨?_, ?_, ?_, ?_, ?_, ?_, ?_⟩
  · intro r hr
    have h := (List.mem_filter.mp hr).2
    simp only [decide_eq_true_eq] at h
    exact h.2.2.2
  · intro r hr
    have h := (List.mem_filter.mp hr).2
    simp only [decide_eq_true_eq] at h
    exact h.2.1
  · intro r hr
    have h := (List.mem_filter.mp hr).2
    simp only [decide_eq_true_eq] at h
    exact h.2.1
  · intro r hr
    have h := (List.mem_filter.mp hr).2
    simp only [decide_eq_true_eq] at h
    exact h.2.2.2
  · intro r hr
    have h := (List.mem_filter.mp hr).2
    simp only [decide_eq_true_eq] at h
    exact h.2
  · intro r hr
    have h := (List.mem_filter.mp hr).2
    simp only [decide_eq_true_eq] at h
    exact h.2.2.2.2
  · intro t ht
    rw [a12inner, List.mem_dedup] at ht
    obtain ⟨r, hr, rfl⟩ := List.mem_map.mp ht
    obtain ⟨hr1, hr2⟩ := List.mem_filter.mp hr
    simp only [decide_eq_true_eq] at hr2
    simp only [List.product, List.mem_flatMap, List.mem_map] at hr1
    obtain ⟨m, hm, p, hp, rfl⟩ := hr1
    exact ⟨m, hm, rfl, hr2.2⟩

/-- Claim C2, counterexample: the claim says A8 is one of the sections with
a Sum line printed directly beneath its table, but the A8 section of the
report has no Sum line at all. -/
theorem C2_counterexample :
    (runReport exDb1 exStart exNova).secA8.title =
      "A8 - Nieuwe leden sinds 2010" ∧
    (runReport exDb1 exStart exNova).secA8.sumLine = none := by
  exact ⟨rfl, rfl⟩

/-- Claim C2, amended: a Sum line is printed directly beneath the tables of
A2, A6 and A11 — not A8 — and for every database state that Sum equals the
arithmetic sum of the count column of the displayed rows; on the empty
database A2 displays no rows and its Sum is 0. -/
theorem C2_amended (db : Db) (start nova : Date) :
    ((runReport db start nova).secA2.body = SectionBody.codeRows (a2 db) ∧
     (runReport db start nova).secA2.sumLine =
       some (((a2 db).map fun x => x.count).sum)) ∧
    ((runReport db start nova).secA6.body =
       SectionBody.codeRows (a6 db start) ∧
     (runReport db start nova).secA6.sumLine =
       some (((a6 db start).map fun x => x.count).sum)) ∧
    ((runReport db start nova).secA11.body =
       SectionBody.codeRows (a11 db start) ∧
     (runReport db start nova).secA11.sumLine =
       some (((a11 db start).map fun x => x.count).sum)) ∧
    (runReport db start nova).secA8.sumLine = none ∧
    (a2 emptyDb = [] ∧
     (runReport emptyDb start nova).secA2.sumLine = some 0) := by
  exact ⟨⟨rfl, rfl⟩, ⟨rfl, rfl⟩, ⟨rfl, rfl⟩, rfl, ⟨rfl, rfl⟩⟩

/-- Claim C3, counterexample: the claim says a malformed date string never
results in a connection being established, but `main` connects (line 41)
before parsing the dates (lines 44-51): on the unparseable first date
"not-a-date" the effect trace still contains the connect event. -/
theorem C3_counterexample :
    parseDate ("not-a-date") = none ∧
    Event.connect ∈ (mainEvents ("not-a-date") ("2022-09-01") emptyDb).1 := by
  refine ⟨by decide, by decide⟩

/-- Claim C3, amended: both date strings are parsed after the connection is
opened but before any query runs; if either fails to parse, the program
aborts with the connection as its only effect and produces no report. -/
theorem C3_amended (d1 d2 : String) (db : Db)
    (h : parseDate d1 = none ∨ parseDate d2 = none) :
    (mainEvents d1 d2 db).1 = [Event.connect] ∧
    (mainEvents d1 d2 db).2 = none := by
  rcases h with h | h
  · simp [mainEvents, h]
  · cases hd : parseDate d1 <;> simp [mainEvents, hd, h]

/-- Witness for C3's amended theorem at the malformed date "2022-13-01". -/
theorem C3_amended_witness :
    parseDate ("2022-13-01") = none ∧
    (mainEvents ("2022-13-01") ("2022-09-01") emptyDb).1 = [Event.connect] ∧
    (mainEvents ("2022-13-01") ("2022-09-01") emptyDb).2 = none :=
  ⟨by decide,
   (C3_amended ("2022-13-01") ("2022-09-01") emptyDb (Or.inl (by decide))).1,
   (C3_amended ("2022-13-01") ("2022-09-01") emptyDb (Or.inl (by decide))).2⟩

/-- Claim C4, counterexample: the claim says A8 has a row for every year
from 2010 through the year containing the study-year start, but for the
start 2023-05-01 (before August 1st of its year) the year 2023 has no row. -/
theorem C4_counterexample :
    exStart4.year = 2023 ∧
    (2023 : Int) ∉ (a8 exDb1 exStart4).map fun r => r.join_year := by
  refine ⟨rfl, by decide⟩

/-- Claim C4, amended: A8 contains exactly one row per year y with
2010 ≤ y and y-08-01 on or before the study-year start — through the
start's year when the start falls on or after August 1st, else only through
the preceding year, and no rows at all for starts before 2010-08-01 — and
every such row is present regardless of the member data, its count being
the distinct count of members who joined in (y-08-01, (y+1)-08-01], hence 0
when no member qualifies. -/
theorem C4_amended (db : Db) (start : Date) :
    (((a8 db start).map fun r => r.join_year).Nodup) ∧
    (∀ y : Int, (y ∈ (a8 db start).map fun r => r.join_year) ↔
      (2010 ≤ y ∧ dateLe ⟨y, 8, 1⟩ start = true)) ∧
    (∀ r ∈ a8 db start,
      r.members = countDistinct ((db.members.filter fun m =>
        dateLt ⟨r.join_year, 8, 1⟩ m.join_date &&
        dateLe m.join_date ⟨r.join_year + 1, 8, 1⟩).map fun m => m.id)) := by
  refine ⟨?_, ?_, ?_⟩
  · rw [a8_years]
    simp only [generate_series, List.map_map]
    apply List.Nodup.map ?_ (List.nodup_range _)
    intro a b h
    simp only [Function.comp] at h
    omega
  · intro y
    rw [a8_years, mem_series_iff]
  · intro r hr
    obtain ⟨gs, hgs, rfl⟩ := List.mem_map.mp hr
    obtain ⟨k, _, rfl⟩ := List.mem_map.mp hgs
    rfl

/-- Claim C5, counterexample: the claim says A4 + A5 ≤ A3 always. In
`exDb5` the only member joined after the start but its single education has
status 1 and study 3; A4 ignores the status filter and the studies join, so
A4 = 1 while A3 = 0. -/
theorem C5_counterexample :
    a3count exDb5 exStart <
      a4count exDb5 exStart + a5count exDb5 exStart := by
  decide

/-- Claim C5, amended: A4 and A5 count by the study-id-5 threshold over all
educations, ignoring the status = 0 filter and the studies join that A3
applies, so the bound can fail; when every education has status 0 and a
matching study row, and no member has educations on both sides of the
threshold, the A4 and A5 member sets are disjoint subsets of A3's and
A4 + A5 ≤ A3 holds. -/
theorem C5_amended (db : Db) (start : Date)
    (hstatus : ∀ e ∈ db.educations, e.status = 0)
    (hstudy : ∀ e ∈ db.educations, ∃ s ∈ db.studies, e.study_id = s.id)
    (hdisj : ∀ e1 ∈ db.educations, ∀ e2 ∈ db.educations,
      e1.member_id = e2.member_id → ¬(e1.study_id < 5 ∧ 4 < e2.study_id)) :
    a4count db start + a5count db start ≤ a3count db start := by
  unfold a4count a5count a3count
  rw [countDistinct_eq_card, countDistinct_eq_card, countDistinct_eq_card]
  have hsub4 : ((a4rows db start).map fun r => r.1.id).toFinset ⊆
      ((a3rows db start).map fun r => r.1.id).toFinset := by
    intro x hx
    rw [List.mem_toFinset, mem_a4ids] at hx
    rw [List.mem_toFinset, mem_a3ids]
    obtain ⟨m, hm, e, he, h1, h2, _h3, rfl⟩ := hx
    obtain ⟨s, hs, hsid⟩ := hstudy e he
    exact ⟨m, hm, e, he, s, hs, h1, hsid, hstatus e he, h2, rfl⟩
  have hsub5 : ((a5rows db start).map fun r => r.1.id).toFinset ⊆
      ((a3rows db start).map fun r => r.1.id).toFinset := by
    intro x hx
    rw [List.mem_toFinset, mem_a5ids] at hx
    rw [List.mem_toFinset, mem_a3ids]
    obtain ⟨m, hm, e, he, h1, h2, _h3, rfl⟩ := hx
    obtain ⟨s, hs, hsid⟩ := hstudy e he
    exact ⟨m, hm, e, he, s, hs, h1, hsid, hstatus e he, h2, rfl⟩
  have hdis : Disjoint ((a4rows db start).map fun r => r.1.id).toFinset
      ((a5rows db start).map fun r => r.1.id).toFinset := by
    rw [Finset.disjoint_left]
    intro x hx4 hx5
    rw [List.mem_toFinset, mem_a4ids] at hx4
    rw [List.mem_toFinset, mem_a5ids] at hx5
    obtain ⟨m, _hm, e, he, h1, _h2, h3, hx⟩ := hx4
    obtain ⟨m', _hm', e', he', h1', _h2', h3', hx'⟩ := hx5
    have hmem : e.member_id = e'.member_id := by
      rw [← h1, ← h1', hx, hx']
    exact hdisj e he e' he' hmem ⟨h3, h3'⟩
  have hnat : (((a4rows db start).map fun r => r.1.id).toFinset.card +
      ((a5rows db start).map fun r => r.1.id).toFinset.card : Nat) ≤
      ((a3rows db start).map fun r => r.1.id).toFinset.card := by
    rw [← Finset.card_union_of_disjoint hdis]
    exact Finset.card_le_card (Finset.union_subset hsub4 hsub5)
  exact_mod_cast hnat

/-- Witness for C5's amended theorem on `wDb5`, where all hypotheses hold. -/
theorem C5_amended_witness :
    a4count wDb5 exStart + a5count wDb5 exStart ≤ a3count wDb5 exStart :=
  C5_amended wDb5 exStart (by decide) (by decide) (by decide)

/-- Claim C6: when the client-side name filter yields an empty id list, the
A13 participant-count query still runs on that empty list and the printed
A13 count is exactly 0. -/
theorem C6_empty_id_list (db : Db) (start : Date)
    (h : extActivities db start = []) :
    a13 db start = 0 := by
  unfold a13
  rw [h]
  unfold a13count countDistinct
  have hnil : (((a13innerRows db).product db.activities).filter fun r =>
      decide (r.1.2 = r.2.id ∧ r.2.id ∈ ([] : List Int))) = [] := by
    apply List.filter_eq_nil_iff.mpr
    intro r _
    simp
  rw [hnil]
  rfl

/-- Witness for C6 on the empty database, whose id list is empty. -/
theorem C6_empty_id_list_witness :
    extActivities emptyDb exStart = [] ∧ a13 emptyDb exStart = 0 :=
  ⟨rfl, C6_empty_id_list emptyDb exStart rfl⟩

/-- Claim C7: the A13 filter keeps an activity exactly when its name,
trimmed of leading and trailing whitespace and compared case-insensitively,
starts with "extern"; in particular "  ExTeRn Feest" is kept and
"Interne Borrel" is not. -/
theorem C7_name_filter :
    (∀ s : String, keepName s = specKeep s) ∧
    keepName ("  ExTeRn Feest") = true ∧
    keepName ("Interne Borrel") = false := by
  refine ⟨?_, by decide, by decide⟩
  intro s
  unfold keepName specKeep
  rw [trim_map_lower]

/-- Claim C8: the date parser accepts exactly the strict zero-padded
YYYY-MM-DD format: "2023-09-01" parses to (2023, 9, 1); "2023-13-01",
"not-a-date" and the non-padded "2023-9-1" are all rejected. -/
theorem C8_date_parsing :
    parseDate ("2023-09-01") = some ⟨2023, 9, 1⟩ ∧
    parseDate ("2023-13-01") = none ∧
    parseDate ("not-a-date") = none ∧
    parseDate ("2023-9-1") = none := by
  refine ⟨by decide, by decide, by decide, by decide⟩

/-- Claim C9: every count the queries produce is a distinct-member count —
each bucket and scalar equals the distinct count of members satisfying the
per-member predicate, so a member reachable through several joined rows
contributes once; in particular in `dupDb`, whose one member has two active
educations under the code "CS", the A2 and A6 buckets for "CS" are 1. -/
theorem C9_distinct_counts (db : Db) (start nova : Date) (ids : List Int)
    (c : String) :
    (a2countFor db c = a2distinct db c ∧
     a6countFor db start c = a6distinct db start c ∧
     a3count db start = a3distinct db start ∧
     a4count db start = a4distinct db start ∧
     a5count db start = a5distinct db start ∧
     a7count db start = a7distinct db start ∧
     a12count db start nova = a12distinct db start nova ∧
     a13count db ids = a13distinct db ids) ∧
    (dupDb.educations = [⟨1, 1, 0⟩, ⟨1, 2, 0⟩] ∧
     a2 dupDb = [⟨"CS", 1⟩] ∧
     a6 dupDb exStart = [⟨"CS", 1⟩]) :=
  ⟨⟨a2count_distinct db c, a6count_distinct db start c,
    a3count_distinct db start, a4count_distinct db start,
    a5count_distinct db start, a7count_distinct db start,
    a12count_distinct db start nova, a13count_distinct db ids⟩,
   ⟨rfl, by decide, by decide⟩⟩

/-- Claim C10: the second date parameter influences only the A12 section —
two runs over the same database and study-year start that differ only in
the cutoff date produce identical sections everywhere but A12. -/
theorem C10_cutoff_noninterference (db : Db) (start nova nova' : Date) :
    (runReport db start nova).secA2 = (runReport db start nova').secA2 ∧
    (runReport db start nova).secA3 = (runReport db start nova').secA3 ∧
    (runReport db start nova).secA4 = (runReport db start nova').secA4 ∧
    (runReport db start nova).secA5 = (runReport db start nova').secA5 ∧
    (runReport db start nova).secA6 = (runReport db start nova').secA6 ∧
    (runReport db start nova).secA7 = (runReport db start nova').secA7 ∧
    (runReport db start nova).secA8 = (runReport db start nova').secA8 ∧
    (runReport db start nova).secA11 = (runReport db start nova').secA11 ∧
    (runReport db start nova).secA13 = (runReport db start nova').secA13 := by
  exact ⟨rfl, rfl, rfl, rfl, rfl, rfl, rfl, rfl, rfl⟩
